import Mathlib

/-!
Shallow embedding of `src/module.c`, the QuickJS/Python value bridge.

The embedding mirrors the C source function by function.  Engine calls
(`JS_Call`, `JS_GetException`, `JS_ToString`, `JS_ToCString`,
`JS_NewString`, `JS_Eval`) are black boxes per the spec, modelled by an
`Engine` oracle record.  Every observable side effect on the engine
(releasing a value or C string, fetching the pending exception,
allocating a string, performing a call or an eval, releasing a context
or runtime) is recorded in an event trace, so ownership and release
counts can be stated and proved.
-/

/- Tag constants of the engine tagged value representation
   (third-party quickjs.h, an external collaborator of this module). -/

def JS_TAG_OBJECT : Int := -1

def JS_TAG_INT : Int := 0

def JS_TAG_BOOL : Int := 1

def JS_TAG_NULL : Int := 2

def JS_TAG_UNDEFINED : Int := 3

def JS_TAG_UNINITIALIZED : Int := 4

def JS_TAG_CATCH_OFFSET : Int := 5

def JS_TAG_EXCEPTION : Int := 6

def JS_TAG_FLOAT64 : Int := 7

def JS_TAG_STRING : Int := -7

/-- A tagged JS value: the tag plus its payload.  `ival` carries the
integer/boolean payload, `fval` the float64 payload (as an opaque bit
pattern; no float arithmetic is performed by the bridge), `sval` the
string payload. -/
structure JSValue where
  tag : Int
  ival : Int
  fval : Int
  sval : String
  deriving DecidableEq

def mkIntVal (n : Int) : JSValue := ⟨JS_TAG_INT, n, 0, ""⟩

def mkStrVal (s : String) : JSValue := ⟨JS_TAG_STRING, 0, 0, s⟩

def jsNull : JSValue := ⟨JS_TAG_NULL, 0, 0, ""⟩

/-- The engine oracle: the behaviour of the black-box engine functions
used by `module.c`.  `JS_GetException` is the pending exception that a
fetch would return (and clear). -/
structure Engine where
  JS_GetException : JSValue
  JS_ToString : JSValue → JSValue
  JS_ToCString : JSValue → String
  JS_NewString : String → JSValue
  JS_Call : JSValue → JSValue → List JSValue → JSValue
  JS_Eval : String → JSValue

/-- `ObjectData` (module.c lines 12-16): a context pointer (none = NULL)
and the retained JS value.  `object_new` leaves `object` as whatever
garbage the allocator produced; the embedding passes that garbage in
explicitly. -/
structure ObjectData where
  context : Option Nat
  object : JSValue
  deriving DecidableEq

/-- Host (Python) values as the bridge produces and consumes them. -/
inductive PyValue where
  | none : PyValue
  | bool : Bool → PyValue
  | int : Int → PyValue
  | float : Int → PyValue
  | str : String → PyValue
  | obj : ObjectData → PyValue
  deriving DecidableEq

/-- The two host error kinds the bridge raises through:
the module-defined `_quickjs.JSException` and the generic host error
`PyExc_ValueError`. -/
inductive PyErrKind where
  | JSException : PyErrKind
  | ValueError : PyErrKind
  deriving DecidableEq

structure PyErr where
  kind : PyErrKind
  msg : String
  deriving DecidableEq

/-- Observable engine-side effects, in chronological order. -/
inductive Event where
  | freeValue : JSValue → Event
  | freeCString : String → Event
  | getException : Event
  | newString : String → Event
  | jsCall : Nat → List JSValue → Event
  | jsEval : String → Event
  | freeContext : Option Nat → Event
  | freeRuntime : Option Nat → Event
  deriving DecidableEq

/-- `PyLong_Check` at the abstraction level of the bridge: the host value is
an integer. -/
def PyLong_Check : PyValue → Bool
  | PyValue.int _ => true
  | _ => false

/-- `PyUnicode_Check`: the host value is a string. -/
def PyUnicode_Check : PyValue → Bool
  | PyValue.str _ => true
  | _ => false

/-- `quickjs_to_python` (module.c lines 81-124): dispatch on the tag of
`value`.  Every branch except the object branch releases `value` (line
119); the object branch returns early (line 114), transferring
ownership of `value` into a fresh handle. -/
def quickjs_to_python (context : Option Nat) (eng : Engine) (value : JSValue) :
    Except PyErr PyValue × List Event :=
  if value.tag = JS_TAG_INT then
    (Except.ok (PyValue.int value.ival), [Event.freeValue value])
  else if value.tag = JS_TAG_BOOL then
    (Except.ok (PyValue.bool (value.ival != 0)), [Event.freeValue value])
  else if value.tag = JS_TAG_NULL then
    (Except.ok PyValue.none, [Event.freeValue value])
  else if value.tag = JS_TAG_UNDEFINED then
    (Except.ok PyValue.none, [Event.freeValue value])
  else if value.tag = JS_TAG_UNINITIALIZED then
    (Except.ok PyValue.none, [Event.freeValue value])
  else if value.tag = JS_TAG_EXCEPTION then
    (Except.error ⟨PyErrKind.JSException,
        eng.JS_ToCString (eng.JS_ToString eng.JS_GetException)⟩,
     [Event.getException,
      Event.freeCString (eng.JS_ToCString (eng.JS_ToString eng.JS_GetException)),
      Event.freeValue (eng.JS_ToString eng.JS_GetException),
      Event.freeValue eng.JS_GetException,
      Event.freeValue value])
  else if value.tag = JS_TAG_FLOAT64 then
    (Except.ok (PyValue.float value.fval), [Event.freeValue value])
  else if value.tag = JS_TAG_STRING then
    (Except.ok (PyValue.str (eng.JS_ToCString value)),
     [Event.freeCString (eng.JS_ToCString value), Event.freeValue value])
  else if value.tag = JS_TAG_OBJECT then
    (Except.ok (PyValue.obj ⟨context, value⟩), [])
  else
    (Except.error ⟨PyErrKind.ValueError, "Unknown quickjs tag: " ++ toString value.tag⟩,
     [Event.freeValue value])

/-- `object_new` (module.c lines 18-25): on allocation success the
context pointer is set to NULL; the `object` field is left as the
allocator garbage `g`. -/
def object_new (allocOk : Bool) (g : JSValue) : Option ObjectData :=
  if allocOk then Option.some ⟨Option.none, g⟩ else Option.none

/-- `object_dealloc` (module.c lines 27-32): release the retained value
exactly when the context pointer is set. -/
def object_dealloc (self : ObjectData) : List Event :=
  match self.context with
  | Option.some _ => [Event.freeValue self.object]
  | Option.none => []

/-- The per-argument conversion in the second loop of `object_call`
(module.c lines 51-57): an integer becomes `JS_MKVAL(JS_TAG_INT, n)`,
a string becomes `JS_NewString`.  Other host types never reach this
loop (the whitelist loop rejected them). -/
def to_js (eng : Engine) : PyValue → JSValue
  | PyValue.int n => mkIntVal n
  | PyValue.str s => eng.JS_NewString s
  | _ => ⟨JS_TAG_UNINITIALIZED, 0, 0, ""⟩

/-- Engine allocations performed by the conversion loop: one
`JS_NewString` per string argument, in argument order. -/
def to_js_events : List PyValue → List Event
  | [] => []
  | PyValue.str s :: rest => Event.newString s :: to_js_events rest
  | _ :: rest => to_js_events rest

/-- `object_call` (module.c lines 34-65).  NULL context returns host
none (lines 35-37).  The whitelist loop (lines 39-47) rejects any
argument that is neither integer nor string before anything else
happens.  The conversion loop builds `jsargs`; `JS_Call` is then
invoked with `this` = `JS_NULL` and argc hardwired to the literal 1
(line 59), so the engine sees only the first element of `jsargs`.
Every `jsargs` element is released afterwards (lines 60-62) and the
result converted via `quickjs_to_python`. -/
def object_call (self : ObjectData) (eng : Engine) (args : List PyValue) :
    Except PyErr PyValue × List Event :=
  match self.context with
  | Option.none => (Except.ok PyValue.none, [])
  | Option.some _ =>
    if args.all (fun item => PyLong_Check item || PyUnicode_Check item) then
      let jsargs := args.map (to_js eng)
      let value := eng.JS_Call self.object jsNull (jsargs.take 1)
      let conv := quickjs_to_python self.context eng value
      (conv.1,
       to_js_events args ++ [Event.jsCall 1 jsargs]
         ++ jsargs.map Event.freeValue ++ conv.2)
    else
      (Except.error ⟨PyErrKind.ValueError, "Unsupported type when calling quickjs object"⟩,
       [])

/-- `ContextData` (module.c lines 135-138): the runtime and context
pointers, each possibly NULL. -/
structure ContextData where
  runtime : Option Nat
  context : Option Nat
  deriving DecidableEq

/-- `context_new` (module.c lines 140-148): on allocation success the
results of `JS_NewRuntime` and `JS_NewContext` are stored with no
checks; `newContext` is the engine context-creation behaviour as a
function of the runtime it is given. -/
def context_new (allocOk : Bool) (newRuntime : Option Nat)
    (newContext : Option Nat → Option Nat) : Option ContextData :=
  if allocOk then Option.some ⟨newRuntime, newContext newRuntime⟩ else Option.none

/-- `context_dealloc` (module.c lines 150-154): free the context, then
the runtime. -/
def context_dealloc (self : ContextData) : List Event :=
  [Event.freeContext self.context, Event.freeRuntime self.runtime]

/-- `context_eval` (module.c lines 156-163): run the source through
`JS_Eval` and convert the resulting value. -/
def context_eval (self : ContextData) (eng : Engine) (code : String) :
    Except PyErr PyValue × List Event :=
  let value := eng.JS_Eval code
  let conv := quickjs_to_python self.context eng value
  (conv.1, Event.jsEval code :: conv.2)

/-- The error kind of a bridge outcome, when it is an error. -/
def errKind : Except PyErr PyValue → Option PyErrKind
  | Except.error e => Option.some e.kind
  | Except.ok _ => Option.none

/-- Recognise engine-call events. -/
def isJsCallEvent : Event → Bool
  | Event.jsCall _ _ => true
  | _ => false

/-- Recognise context/runtime release events. -/
def isSessionRelease : Event → Bool
  | Event.freeContext _ => true
  | Event.freeRuntime _ => true
  | _ => false

/-- A tag the dispatch chain of `quickjs_to_python` handles. -/
def isKnownTag (t : Int) : Bool :=
  t = JS_TAG_INT || t = JS_TAG_BOOL || t = JS_TAG_NULL || t = JS_TAG_UNDEFINED ||
  t = JS_TAG_UNINITIALIZED || t = JS_TAG_EXCEPTION || t = JS_TAG_FLOAT64 ||
  t = JS_TAG_STRING || t = JS_TAG_OBJECT

/- Concrete sample data used by counterexamples and witnesses. -/

def demoFunc : JSValue := ⟨JS_TAG_OBJECT, 99, 0, ""⟩

def demoHandle : ObjectData := ⟨Option.some 1, demoFunc⟩

def demoEngine : Engine where
  JS_GetException := ⟨JS_TAG_OBJECT, 7, 0, ""⟩
  JS_ToString := fun _ => mkStrVal "Error: boom"
  JS_ToCString := fun v => v.sval
  JS_NewString := fun s => mkStrVal s
  JS_Call := fun _ _ _ => mkIntVal 42
  JS_Eval := fun _ => mkIntVal 7

/- Dispatch lemmas: how `quickjs_to_python` behaves on each tag. -/

theorem qtp_int (ctx : Option Nat) (eng : Engine) (v : JSValue) (h : v.tag = JS_TAG_INT) :
    quickjs_to_python ctx eng v = (Except.ok (PyValue.int v.ival), [Event.freeValue v]) := by
  simp [quickjs_to_python, h]

theorem qtp_bool (ctx : Option Nat) (eng : Engine) (v : JSValue) (h : v.tag = JS_TAG_BOOL) :
    quickjs_to_python ctx eng v =
      (Except.ok (PyValue.bool (v.ival != 0)), [Event.freeValue v]) := by
  simp [quickjs_to_python, h, JS_TAG_BOOL, JS_TAG_INT]

theorem qtp_null (ctx : Option Nat) (eng : Engine) (v : JSValue) (h : v.tag = JS_TAG_NULL) :
    quickjs_to_python ctx eng v = (Except.ok PyValue.none, [Event.freeValue v]) := by
  simp [quickjs_to_python, h, JS_TAG_NULL, JS_TAG_INT, JS_TAG_BOOL]

theorem qtp_undefined (ctx : Option Nat) (eng : Engine) (v : JSValue)
    (h : v.tag = JS_TAG_UNDEFINED) :
    quickjs_to_python ctx eng v = (Except.ok PyValue.none, [Event.freeValue v]) := by
  simp [quickjs_to_python, h, JS_TAG_UNDEFINED, JS_TAG_INT, JS_TAG_BOOL, JS_TAG_NULL]

theorem qtp_uninitialized (ctx : Option Nat) (eng : Engine) (v : JSValue)
    (h : v.tag = JS_TAG_UNINITIALIZED) :
    quickjs_to_python ctx eng v = (Except.ok PyValue.none, [Event.freeValue v]) := by
  simp [quickjs_to_python, h, JS_TAG_UNINITIALIZED, JS_TAG_INT, JS_TAG_BOOL, JS_TAG_NULL,
    JS_TAG_UNDEFINED]

theorem qtp_exception (ctx : Option Nat) (eng : Engine) (v : JSValue)
    (h : v.tag = JS_TAG_EXCEPTION) :
    quickjs_to_python ctx eng v =
      (Except.error ⟨PyErrKind.JSException,
          eng.JS_ToCString (eng.JS_ToString eng.JS_GetException)⟩,
       [Event.getException,
        Event.freeCString (eng.JS_ToCString (eng.JS_ToString eng.JS_GetException)),
        Event.freeValue (eng.JS_ToString eng.JS_GetException),
        Event.freeValue eng.JS_GetException,
        Event.freeValue v]) := by
  simp [quickjs_to_python, h, JS_TAG_EXCEPTION, JS_TAG_INT, JS_TAG_BOOL, JS_TAG_NULL,
    JS_TAG_UNDEFINED, JS_TAG_UNINITIALIZED]

theorem qtp_float (ctx : Option Nat) (eng : Engine) (v : JSValue)
    (h : v.tag = JS_TAG_FLOAT64) :
    quickjs_to_python ctx eng v = (Except.ok (PyValue.float v.fval), [Event.freeValue v]) := by
  simp [quickjs_to_python, h, JS_TAG_FLOAT64, JS_TAG_INT, JS_TAG_BOOL, JS_TAG_NULL,
    JS_TAG_UNDEFINED, JS_TAG_UNINITIALIZED, JS_TAG_EXCEPTION]

theorem qtp_string (ctx : Option Nat) (eng : Engine) (v : JSValue)
    (h : v.tag = JS_TAG_STRING) :
    quickjs_to_python ctx eng v =
      (Except.ok (PyValue.str (eng.JS_ToCString v)),
       [Event.freeCString (eng.JS_ToCString v), Event.freeValue v]) := by
  simp [quickjs_to_python, h, JS_TAG_STRING, JS_TAG_INT, JS_TAG_BOOL, JS_TAG_NULL,
    JS_TAG_UNDEFINED, JS_TAG_UNINITIALIZED, JS_TAG_EXCEPTION, JS_TAG_FLOAT64]

theorem qtp_object (ctx : Option Nat) (eng : Engine) (v : JSValue)
    (h : v.tag = JS_TAG_OBJECT) :
    quickjs_to_python ctx eng v = (Except.ok (PyValue.obj ⟨ctx, v⟩), []) := by
  simp [quickjs_to_python, h, JS_TAG_OBJECT, JS_TAG_INT, JS_TAG_BOOL, JS_TAG_NULL,
    JS_TAG_UNDEFINED, JS_TAG_UNINITIALIZED, JS_TAG_EXCEPTION, JS_TAG_FLOAT64, JS_TAG_STRING]

theorem qtp_unknown (ctx : Option Nat) (eng : Engine) (v : JSValue)
    (h : isKnownTag v.tag = false) :
    quickjs_to_python ctx eng v =
      (Except.error ⟨PyErrKind.ValueError, "Unknown quickjs tag: " ++ toString v.tag⟩,
       [Event.freeValue v]) := by
  simp only [isKnownTag, Bool.or_eq_false_iff, decide_eq_false_iff_not] at h
  simp [quickjs_to_python, h]

/- Trace helper lemmas. -/

theorem qtp_freeValue_mem (ctx : Option Nat) (eng : Engine) (v w : JSValue)
    (h : Event.freeValue w ∈ (quickjs_to_python ctx eng v).2) :
    w = v ∨ w = eng.JS_GetException ∨ w = eng.JS_ToString eng.JS_GetException := by
  unfold quickjs_to_python at h
  split_ifs at h <;> simp_all
  tauto

theorem qtp_no_session_release (ctx : Option Nat) (eng : Engine) (v : JSValue) :
    ((quickjs_to_python ctx eng v).2.countP isSessionRelease) = 0 := by
  unfold quickjs_to_python
  split_ifs <;> simp [isSessionRelease]

theorem to_js_events_countP_session (args : List PyValue) :
    (to_js_events args).countP isSessionRelease = 0 := by
  induction args with
  | nil => rfl
  | cons a rest ih => cases a <;> simp [to_js_events, isSessionRelease, ih]

theorem to_js_events_count_freeValue (args : List PyValue) (w : JSValue) :
    (to_js_events args).count (Event.freeValue w) = 0 := by
  induction args with
  | nil => rfl
  | cons a rest ih => cases a <;> simp [to_js_events, List.count_cons, ih]

theorem object_call_run (self : ObjectData) (c : Nat) (eng : Engine) (args : List PyValue)
    (hc : self.context = Option.some c)
    (hw : args.all (fun item => PyLong_Check item || PyUnicode_Check item) = true) :
    object_call self eng args =
      ((quickjs_to_python self.context eng
          (eng.JS_Call self.object jsNull ((args.map (to_js eng)).take 1))).1,
       to_js_events args ++ [Event.jsCall 1 (args.map (to_js eng))]
         ++ (args.map (to_js eng)).map Event.freeValue
         ++ (quickjs_to_python self.context eng
              (eng.JS_Call self.object jsNull ((args.map (to_js eng)).take 1))).2) := by
  unfold object_call
  rw [hc]
  simp [hw]

theorem object_call_reject (self : ObjectData) (c : Nat) (eng : Engine) (args : List PyValue)
    (hc : self.context = Option.some c)
    (hw : args.all (fun item => PyLong_Check item || PyUnicode_Check item) = false) :
    object_call self eng args =
      (Except.error ⟨PyErrKind.ValueError, "Unsupported type when calling quickjs object"⟩,
       []) := by
  unfold object_call
  rw [hc]
  simp [hw]

theorem object_call_nullctx (self : ObjectData) (eng : Engine) (args : List PyValue)
    (h : self.context = Option.none) :
    object_call self eng args = (Except.ok PyValue.none, []) := by
  unfold object_call
  rw [h]

theorem count_eq_zero_of_countP_session (l : List Event)
    (h : l.countP isSessionRelease = 0) (e : Event) (he : isSessionRelease e = true) :
    l.count e = 0 := by
  rw [List.count_eq_zero]
  intro hmem
  rw [List.countP_eq_zero] at h
  exact absurd he (by simpa using h e hmem)

/-- C7: invoking an Object Handle whose context reference is absent returns
host none for any argument sequence, without raising and without any
engine-side effect (the event trace is empty). -/
theorem invoke_null_context_noop (self : ObjectData) (eng : Engine)
    (args : List PyValue) (h : self.context = Option.none) :
    object_call self eng args = (Except.ok PyValue.none, []) :=
  object_call_nullctx self eng args h

/-- C7 witness: a concrete unbound handle invoked with a float argument. -/
theorem invoke_null_context_noop_witness :
    object_call ⟨Option.none, demoFunc⟩ demoEngine [PyValue.float 3] =
      (Except.ok PyValue.none, []) :=
  invoke_null_context_noop ⟨Option.none, demoFunc⟩ demoEngine [PyValue.float 3] rfl

/-- C8: the three JS absence tags — null, undefined and uninitialized — all
convert to the single host none value. -/
theorem absence_tags_to_none (ctx : Option Nat) (eng : Engine) (v : JSValue)
    (h : v.tag = JS_TAG_NULL ∨ v.tag = JS_TAG_UNDEFINED ∨ v.tag = JS_TAG_UNINITIALIZED) :
    (quickjs_to_python ctx eng v).1 = Except.ok PyValue.none := by
  rcases h with h | h | h
  · rw [qtp_null ctx eng v h]
  · rw [qtp_undefined ctx eng v h]
  · rw [qtp_uninitialized ctx eng v h]

/-- C8 witness: the three absence tags at concrete values. -/
theorem absence_tags_to_none_witness :
    (quickjs_to_python (Option.some 1) demoEngine ⟨JS_TAG_NULL, 0, 0, ""⟩).1 =
      Except.ok PyValue.none
  ∧ (quickjs_to_python (Option.some 1) demoEngine ⟨JS_TAG_UNDEFINED, 0, 0, ""⟩).1 =
      Except.ok PyValue.none
  ∧ (quickjs_to_python (Option.some 1) demoEngine ⟨JS_TAG_UNINITIALIZED, 0, 0, ""⟩).1 =
      Except.ok PyValue.none :=
  ⟨absence_tags_to_none (Option.some 1) demoEngine ⟨JS_TAG_NULL, 0, 0, ""⟩ (Or.inl rfl),
   absence_tags_to_none (Option.some 1) demoEngine ⟨JS_TAG_UNDEFINED, 0, 0, ""⟩
     (Or.inr (Or.inl rfl)),
   absence_tags_to_none (Option.some 1) demoEngine ⟨JS_TAG_UNINITIALIZED, 0, 0, ""⟩
     (Or.inr (Or.inr rfl))⟩

/-- C10: a handle constructed directly by the host starts with no context
reference; destroying a handle releases its retained JS value exactly when the
context reference is set, so destroying a never-bound handle releases
nothing. -/
theorem handle_lifecycle :
    (∀ g : JSValue, object_new true g = Option.some ⟨Option.none, g⟩)
  ∧ (∀ (c : Nat) (g : JSValue), object_dealloc ⟨Option.some c, g⟩ = [Event.freeValue g])
  ∧ (∀ g : JSValue, object_dealloc ⟨Option.none, g⟩ = []) :=
  ⟨fun _ => rfl, fun _ _ => rfl, fun _ => rfl⟩

/-- C6 counterexample: with host allocation succeeding, the runtime allocated
as id 1 and context creation failing, `context_new` still returns a
constructed session whose context is absent — the caller does not observe a
failed construction. -/
theorem context_new_succeeds_without_context :
    context_new true (Option.some 1) (fun _ => Option.none) =
      Option.some ⟨Option.some 1, Option.none⟩
  ∧ (context_new true (Option.some 1) (fun _ => Option.none)).isSome = true :=
  ⟨rfl, rfl⟩

/-- C6 (amended): session construction fails only when host allocation of the
session object fails; the runtime and context creation results are stored
unchecked, so when context creation fails the caller still receives a session
with an absent context, and the runtime held by such a session is released at
session destruction rather than leaked. -/
theorem session_construction_unchecked :
    (∀ (rt : Option Nat) (f : Option Nat → Option Nat),
        context_new true rt f = Option.some ⟨rt, f rt⟩)
  ∧ (∀ (rt : Option Nat) (f : Option Nat → Option Nat),
        context_new false rt f = Option.none)
  ∧ (∀ rt : Option Nat,
        (context_dealloc ⟨rt, Option.none⟩).count (Event.freeRuntime rt) = 1) := by
  refine ⟨fun rt f => rfl, fun rt f => rfl, fun rt => ?_⟩
  simp [context_dealloc]

/-- C1 (code evaluation at the failing input): invoking a bound handle with
the two integer arguments 1 and 2 emits exactly one engine-call event, and
that call passes argc = 1 together with the two-element converted buffer —
the engine receives one argument where the host passed two. -/
theorem invoke_engine_call_argc_is_one :
    ((object_call demoHandle demoEngine [PyValue.int 1, PyValue.int 2]).2.filter
        isJsCallEvent)
      = [Event.jsCall 1 [mkIntVal 1, mkIntVal 2]]
  ∧ [PyValue.int 1, PyValue.int 2].length = 2 :=
  ⟨rfl, rfl⟩

/-- C2 counterexample: an unsupported-argument rejection (a float argument) is
raised through the generic host ValueError kind, not through the
distinguished JSException kind, so not every bridge failure uses the single
distinguished kind. -/
theorem unsupported_arg_error_kind_not_jsexception :
    errKind (object_call demoHandle demoEngine [PyValue.float 3]).1 =
      Option.some PyErrKind.ValueError
  ∧ PyErrKind.ValueError ≠ PyErrKind.JSException :=
  ⟨rfl, by decide⟩

/-- C2 (amended): translated JS runtime exceptions surface through the
distinguished JSException kind carrying the stringified exception;
unsupported-argument rejections and unknown-tag internal errors surface
through the generic host ValueError kind, each carrying a human-readable
message. -/
theorem bridge_error_kind_by_failure :
    (∀ (ctx : Option Nat) (eng : Engine) (v : JSValue), v.tag = JS_TAG_EXCEPTION →
        (quickjs_to_python ctx eng v).1 =
          Except.error ⟨PyErrKind.JSException,
            eng.JS_ToCString (eng.JS_ToString eng.JS_GetException)⟩)
  ∧ (∀ (self : ObjectData) (c : Nat) (eng : Engine) (args : List PyValue),
        self.context = Option.some c →
        args.all (fun item => PyLong_Check item || PyUnicode_Check item) = false →
        (object_call self eng args).1 =
          Except.error ⟨PyErrKind.ValueError,
            "Unsupported type when calling quickjs object"⟩)
  ∧ (∀ (ctx : Option Nat) (eng : Engine) (v : JSValue), isKnownTag v.tag = false →
        (quickjs_to_python ctx eng v).1 =
          Except.error ⟨PyErrKind.ValueError,
            "Unknown quickjs tag: " ++ toString v.tag⟩) := by
  refine ⟨fun ctx eng v h => ?_, fun self c eng args hc hw => ?_, fun ctx eng v h => ?_⟩
  · rw [qtp_exception ctx eng v h]
  · rw [object_call_reject self c eng args hc hw]
  · rw [qtp_unknown ctx eng v h]

/-- C2 witness: concrete instances of the three failure channels. -/
theorem bridge_error_kind_by_failure_witness :
    (quickjs_to_python (Option.some 1) demoEngine ⟨JS_TAG_EXCEPTION, 0, 0, ""⟩).1 =
      Except.error ⟨PyErrKind.JSException, "Error: boom"⟩
  ∧ (object_call demoHandle demoEngine [PyValue.float 3]).1 =
      Except.error ⟨PyErrKind.ValueError, "Unsupported type when calling quickjs object"⟩
  ∧ (quickjs_to_python (Option.some 1) demoEngine ⟨JS_TAG_CATCH_OFFSET, 0, 0, ""⟩).1 =
      Except.error ⟨PyErrKind.ValueError, "Unknown quickjs tag: 5"⟩ :=
  ⟨bridge_error_kind_by_failure.1 (Option.some 1) demoEngine ⟨JS_TAG_EXCEPTION, 0, 0, ""⟩ rfl,
   bridge_error_kind_by_failure.2.1 demoHandle 1 demoEngine [PyValue.float 3] rfl rfl,
   bridge_error_kind_by_failure.2.2 (Option.some 1) demoEngine
     ⟨JS_TAG_CATCH_OFFSET, 0, 0, ""⟩ rfl⟩

/-- C4: with a valid context, if any argument is neither a host integer nor a
host string, invoke raises the rejection error with an empty event trace: no
engine allocation happens, no JS value is constructed, and the engine call
never happens. -/
theorem invoke_rejects_before_engine_effects (self : ObjectData) (c : Nat)
    (eng : Engine) (args : List PyValue)
    (hc : self.context = Option.some c)
    (hbad : ∃ a ∈ args, PyLong_Check a = false ∧ PyUnicode_Check a = false) :
    object_call self eng args =
      (Except.error ⟨PyErrKind.ValueError, "Unsupported type when calling quickjs object"⟩,
       []) := by
  apply object_call_reject self c eng args hc
  rw [List.all_eq_false]
  obtain ⟨a, ha, h1, h2⟩ := hbad
  exact ⟨a, ha, by simp [h1, h2]⟩

/-- C4 witness: a bound handle invoked with an integer and a float. -/
theorem invoke_rejects_before_engine_effects_witness :
    object_call demoHandle demoEngine [PyValue.int 1, PyValue.float 3] =
      (Except.error ⟨PyErrKind.ValueError, "Unsupported type when calling quickjs object"⟩,
       []) :=
  invoke_rejects_before_engine_effects demoHandle 1 demoEngine
    [PyValue.int 1, PyValue.float 3] rfl
    ⟨PyValue.float 3, by simp, rfl, rfl⟩

/-- C5: converting an exception-marker value fetches the pending exception
from the context, raises the JSException kind carrying the stringified
exception, returns no host value, and releases both the fetched exception and
its string form exactly once. -/
theorem exception_translation (ctx : Option Nat) (eng : Engine) (v : JSValue)
    (htag : v.tag = JS_TAG_EXCEPTION)
    (h1 : eng.JS_ToString eng.JS_GetException ≠ eng.JS_GetException)
    (h2 : v ≠ eng.JS_GetException)
    (h3 : v ≠ eng.JS_ToString eng.JS_GetException) :
    (quickjs_to_python ctx eng v).1 =
      Except.error ⟨PyErrKind.JSException,
        eng.JS_ToCString (eng.JS_ToString eng.JS_GetException)⟩
  ∧ Event.getException ∈ (quickjs_to_python ctx eng v).2
  ∧ (quickjs_to_python ctx eng v).2.count (Event.freeValue eng.JS_GetException) = 1
  ∧ (quickjs_to_python ctx eng v).2.count
      (Event.freeValue (eng.JS_ToString eng.JS_GetException)) = 1 := by
  rw [qtp_exception ctx eng v htag]
  refine ⟨rfl, by simp, ?_, ?_⟩
  · simp [List.count_cons, h1, h2]
  · simp [List.count_cons, h3, Ne.symm h1]

/-- C5 witness: a concrete exception marker translated under the demo
engine. -/
theorem exception_translation_witness :
    (quickjs_to_python (Option.some 1) demoEngine ⟨JS_TAG_EXCEPTION, 0, 0, ""⟩).1 =
      Except.error ⟨PyErrKind.JSException,
        demoEngine.JS_ToCString (demoEngine.JS_ToString demoEngine.JS_GetException)⟩
  ∧ Event.getException ∈
      (quickjs_to_python (Option.some 1) demoEngine ⟨JS_TAG_EXCEPTION, 0, 0, ""⟩).2
  ∧ (quickjs_to_python (Option.some 1) demoEngine ⟨JS_TAG_EXCEPTION, 0, 0, ""⟩).2.count
      (Event.freeValue demoEngine.JS_GetException) = 1
  ∧ (quickjs_to_python (Option.some 1) demoEngine ⟨JS_TAG_EXCEPTION, 0, 0, ""⟩).2.count
      (Event.freeValue (demoEngine.JS_ToString demoEngine.JS_GetException)) = 1 :=
  exception_translation (Option.some 1) demoEngine ⟨JS_TAG_EXCEPTION, 0, 0, ""⟩
    rfl (by decide) (by decide) (by decide)

/-- C9: session destruction releases the context first and the runtime second;
evaluate and invoke emit no context or runtime release on any path (success or
error), so any run of evaluate/invoke calls followed by exactly one destroy
releases each resource exactly once. -/
theorem destroy_order_and_single_release :
    (∀ self : ContextData, context_dealloc self =
        [Event.freeContext self.context, Event.freeRuntime self.runtime])
  ∧ (∀ (obj : ObjectData) (eng : Engine) (args : List PyValue),
        ((object_call obj eng args).2.countP isSessionRelease) = 0)
  ∧ (∀ (self : ContextData) (eng : Engine) (code : String),
        ((context_eval self eng code).2.countP isSessionRelease) = 0)
  ∧ (∀ (self : ContextData) (obj : ObjectData) (eng : Engine) (code : String)
        (args : List PyValue),
        (((context_eval self eng code).2 ++ (object_call obj eng args).2
            ++ context_dealloc self).count (Event.freeContext self.context) = 1
         ∧ ((context_eval self eng code).2 ++ (object_call obj eng args).2
            ++ context_dealloc self).count (Event.freeRuntime self.runtime) = 1)) := by
  have hinvoke : ∀ (obj : ObjectData) (eng : Engine) (args : List PyValue),
      ((object_call obj eng args).2.countP isSessionRelease) = 0 := by
    intro obj eng args
    cases hobj : obj.context with
    | none =>
      rw [object_call_nullctx obj eng args hobj]
      rfl
    | some c =>
      by_cases hw : args.all (fun item => PyLong_Check item || PyUnicode_Check item) = true
      · rw [object_call_run obj c eng args hobj hw]
        simp [to_js_events_countP_session, qtp_no_session_release, isSessionRelease,
          Function.comp]
      · rw [object_call_reject obj c eng args hobj (by simpa using hw)]
        rfl
  have heval : ∀ (self : ContextData) (eng : Engine) (code : String),
      ((context_eval self eng code).2.countP isSessionRelease) = 0 := by
    intro self eng code
    simp [context_eval, isSessionRelease, qtp_no_session_release]
  refine ⟨fun self => rfl, hinvoke, heval, ?_⟩
  intro self obj eng code args
  constructor
  · rw [List.count_append, List.count_append,
      count_eq_zero_of_countP_session _ (heval self eng code)
        (Event.freeContext self.context) rfl,
      count_eq_zero_of_countP_session _ (hinvoke obj eng args)
        (Event.freeContext self.context) rfl]
    simp [context_dealloc]
  · rw [List.count_append, List.count_append,
      count_eq_zero_of_countP_session _ (heval self eng code)
        (Event.freeRuntime self.runtime) rfl,
      count_eq_zero_of_countP_session _ (hinvoke obj eng args)
        (Event.freeRuntime self.runtime) rfl]
    simp [context_dealloc]

/-- C3: every tagged value crossing the bridge is consumed exactly once —
a non-object value is converted and released exactly once, an object value is
not released but transferred into exactly one new handle, and every transient
argument value built by invoke is released exactly once after the engine
call, whatever the call produces. -/
theorem value_consumed_exactly_once :
    (∀ (ctx : Option Nat) (eng : Engine) (v : JSValue),
        v.tag ≠ JS_TAG_OBJECT →
        eng.JS_GetException ≠ v →
        eng.JS_ToString eng.JS_GetException ≠ v →
        (quickjs_to_python ctx eng v).2.count (Event.freeValue v) = 1)
  ∧ (∀ (ctx : Option Nat) (eng : Engine) (v : JSValue),
        v.tag = JS_TAG_OBJECT →
        (quickjs_to_python ctx eng v).2.count (Event.freeValue v) = 0
        ∧ (quickjs_to_python ctx eng v).1 = Except.ok (PyValue.obj ⟨ctx, v⟩))
  ∧ (∀ (self : ObjectData) (c : Nat) (eng : Engine) (args : List PyValue) (w : JSValue),
        self.context = Option.some c →
        args.all (fun item => PyLong_Check item || PyUnicode_Check item) = true →
        (args.map (to_js eng)).count w = 1 →
        eng.JS_Call self.object jsNull ((args.map (to_js eng)).take 1) ≠ w →
        eng.JS_GetException ≠ w →
        eng.JS_ToString eng.JS_GetException ≠ w →
        (object_call self eng args).2.count (Event.freeValue w) = 1) := by
  refine ⟨?_, ?_, ?_⟩
  · intro ctx eng v htag hexc hestr
    unfold quickjs_to_python
    split_ifs <;> simp_all [List.count_cons]
  · intro ctx eng v htag
    rw [qtp_object ctx eng v htag]
    exact ⟨rfl, rfl⟩
  · intro self c eng args w hc hw hcount hcall hexc hestr
    rw [object_call_run self c eng args hc hw]
    have hconv : (quickjs_to_python self.context eng
        (eng.JS_Call self.object jsNull ((args.map (to_js eng)).take 1))).2.count
        (Event.freeValue w) = 0 := by
      rw [List.count_eq_zero]
      intro hmem
      rcases qtp_freeValue_mem self.context eng
          (eng.JS_Call self.object jsNull ((args.map (to_js eng)).take 1)) w hmem with
        h | h | h
      · exact hcall h.symm
      · exact hexc h.symm
      · exact hestr h.symm
    have hmap : ((args.map (to_js eng)).map Event.freeValue).count (Event.freeValue w) =
        (args.map (to_js eng)).count w :=
      List.count_map_of_injective (args.map (to_js eng)) Event.freeValue
        (fun a b hab => by injection hab) w
    simp only [List.count_append]
    rw [to_js_events_count_freeValue, hconv, hmap, hcount]
    simp [List.count_cons]

/-- C3 witness: an integer value is released once by conversion, an
object value is transferred unreleased into a handle, and a transient integer
argument is released once by invoke. -/
theorem value_consumed_exactly_once_witness :
    (quickjs_to_python (Option.some 1) demoEngine (mkIntVal 3)).2.count
        (Event.freeValue (mkIntVal 3)) = 1
  ∧ (quickjs_to_python (Option.some 1) demoEngine demoFunc).2.count
        (Event.freeValue demoFunc) = 0
  ∧ (object_call demoHandle demoEngine [PyValue.int 5]).2.count
        (Event.freeValue (mkIntVal 5)) = 1 :=
  ⟨value_consumed_exactly_once.1 (Option.some 1) demoEngine (mkIntVal 3)
     (by decide) (by decide) (by decide),
   (value_consumed_exactly_once.2.1 (Option.some 1) demoEngine demoFunc rfl).1,
   value_consumed_exactly_once.2.2 demoHandle 1 demoEngine [PyValue.int 5] (mkIntVal 5)
     rfl rfl (by decide) (by decide) (by decide) (by decide)⟩
